import Mathlib

/-!
Verification development for the icon cache + search subsystem of the
sanshu repository.  The visible source is the Vue/TypeScript front end
(`src/frontend/composables/useIconSearch.ts`, `src/frontend/types/icon.ts`,
`IconResultsPanel.vue`); the Rust cache core behind the Tauri IPC boundary
(CacheStore, SearchCoordinator, ContentResolver, CacheAdmin) is not in the
visible slice and is modelled from the specification where needed.
-/

namespace Sanshu

/-! ### Front-end data model (src/frontend/types/icon.ts) -/

/-- `IconItem` from icon.ts: camelCase in-memory shape of one icon.
Optional TypeScript fields become `Option`. -/
structure IconItem where
  id : Nat
  name : String
  fontClass : String
  unicode : Option String
  svgContent : Option String
  previewUrl : Option String
  author : Option String
  repositoryName : Option String
  repositoryId : Option Nat
  createdAt : Option String
  deriving DecidableEq, Repr

/-- The snake_case wire shape of an icon at the Tauri IPC boundary, as built
in `copyToClipboard` / `saveIcons` and consumed by `transformIconFromBackend`
(useIconSearch.ts). -/
structure BackendIcon where
  id : Nat
  name : String
  font_class : String
  unicode : Option String
  svg_content : Option String
  preview_url : Option String
  author : Option String
  repository_name : Option String
  repository_id : Option Nat
  created_at : Option String
  deriving DecidableEq, Repr

/-- `transformIconFromBackend` (useIconSearch.ts lines 136-149):
snake_case wire icon to camelCase `IconItem`, field for field. -/
def transformIconFromBackend (icon : BackendIcon) : IconItem :=
  { id := icon.id
    name := icon.name
    fontClass := icon.font_class
    unicode := icon.unicode
    svgContent := icon.svg_content
    previewUrl := icon.preview_url
    author := icon.author
    repositoryName := icon.repository_name
    repositoryId := icon.repository_id
    createdAt := icon.created_at }

/-- The backend-format object literal built inside `copyToClipboard`
(useIconSearch.ts lines 221-232; `saveIcons` builds the identical shape):
camelCase `IconItem` to snake_case wire icon. -/
def iconToBackend (icon : IconItem) : BackendIcon :=
  { id := icon.id
    name := icon.name
    font_class := icon.fontClass
    unicode := icon.unicode
    svg_content := icon.svgContent
    preview_url := icon.previewUrl
    author := icon.author
    repository_name := icon.repositoryName
    repository_id := icon.repositoryId
    created_at := icon.createdAt }

/-- `IconSearchResult` from icon.ts: one page of search results
(the spec's SearchResultPage). -/
structure IconSearchResult where
  icons : List IconItem
  total : Nat
  page : Nat
  pageSize : Nat
  hasMore : Bool
  deriving DecidableEq, Repr

/-- The snake_case wire shape of a search result returned by the
`search_icons` Tauri command (consumed in `search`, useIconSearch.ts
lines 113-122). -/
structure BackendSearchResult where
  icons : List BackendIcon
  total : Nat
  page : Nat
  page_size : Nat
  has_more : Bool
  deriving DecidableEq, Repr

/-- The response-field translation done in `search` (useIconSearch.ts
lines 116-122): snake_case to camelCase, icons mapped through
`transformIconFromBackend`. -/
def transformSearchResult (result : BackendSearchResult) : IconSearchResult :=
  { icons := result.icons.map transformIconFromBackend
    total := result.total
    page := result.page
    pageSize := result.page_size
    hasMore := result.has_more }

/-! ### Front-end hook state (useIconSearch.ts) -/

/-- JavaScript whitespace test for the characters relevant to
`String.prototype.trim` on query strings. -/
def isJsSpace (c : Char) : Bool :=
  c = ' ' || c = '\t' || c = '\n' || c = '\r'

/-- Trim of a character list: drop whitespace from both ends. -/
def trimChars (l : List Char) : List Char :=
  ((l.dropWhile isJsSpace).reverse.dropWhile isJsSpace).reverse

/-- `query.trim()` as used in `search` (useIconSearch.ts line 88). -/
def jsTrim (s : String) : String :=
  ⟨trimChars s.data⟩

/-- The reactive `searchParams` object of the hook: every field is present
(initialised from `DEFAULT_SEARCH_PARAMS` in icon.ts). -/
structure IconSearchParamsFE where
  query : String
  style : String
  fills : String
  sortType : String
  page : Nat
  pageSize : Nat
  fromCollection : Bool
  deriving DecidableEq, Repr

/-- `DEFAULT_SEARCH_PARAMS` (icon.ts lines 225-233). -/
def DEFAULT_SEARCH_PARAMS : IconSearchParamsFE :=
  { query := ""
    style := "all"
    fills := "all"
    sortType := "relate"
    page := 1
    pageSize := 50
    fromCollection := false }

/-- The slice of the hook's reactive state that `search` reads and writes
(useIconSearch.ts lines 27-48). -/
structure HookState where
  loading : Bool
  error : Option String
  searchParams : IconSearchParamsFE
  searchResult : Option IconSearchResult
  selectedIds : List Nat
  deriving DecidableEq, Repr

/-- Outcome of the awaited `invoke('search_icons')` call: either the wire
result or a rejection carried as its string form (`String(e)`). -/
inductive InvokeOutcome where
  | ok (result : BackendSearchResult)
  | err (e : String)
  deriving DecidableEq, Repr

/-- `search(resetPage)` of useIconSearch.ts (lines 87-131) as a state
transformer, the outcome of the single `invoke` call passed explicitly:
empty-after-trim query sets an error message and returns at once (lines
88-91); otherwise `resetPage` resets page and selection (lines 93-96),
and the invoke outcome either stores the transformed result (lines
113-122) or stores `String(e)` as error and nulls the result (lines
124-127); `loading` is false afterwards (line 129). -/
def hookSearch (st : HookState) (resetPage : Bool) (outcome : InvokeOutcome) :
    HookState :=
  if jsTrim st.searchParams.query = "" then
    { st with error := some "请输入搜索关键词" }
  else
    let st1 :=
      if resetPage then
        { st with searchParams := { st.searchParams with page := 1 }, selectedIds := [] }
      else st
    match outcome with
    | .ok result =>
        { st1 with
            loading := false
            error := none
            searchResult := some (transformSearchResult result) }
    | .err e =>
        { st1 with
            loading := false
            error := some e
            searchResult := none }

/-! ### Spec-modelled cache core

The Rust cache core (CacheStore, SearchCoordinator, ContentResolver,
CacheAdmin under `src/rust/mcp/tools/icon/`, per docs/集成方案) is not in
the visible repository slice; the following definitions are modelled from
the specification. -/

/-- Modelled from the spec: `CacheEntry` of the missing CacheStore — a
cached value with `insertedAt`, `expiresAt` (= insertedAt + TTL),
`approximateSizeBytes`. -/
structure CacheEntry (α : Type) where
  value : α
  insertedAt : Nat
  expiresAt : Nat
  sizeBytes : Nat
  deriving DecidableEq, Repr

/-- The store's entry table, an association list kept in insertion order
(head = oldest `insertedAt`). -/
abbrev Store (κ α : Type) := List (κ × CacheEntry α)

/-- Estimated memory usage: sum of the entries' approximate sizes. -/
def storeSize {κ α : Type} (s : Store κ α) : Nat :=
  (s.map fun kv => kv.2.sizeBytes).sum

/-- Modelled from the spec: runtime capacity configuration of the missing
CacheStore (max memory estimate and max entry count). -/
structure CacheConfig where
  maxMemoryBytes : Nat
  maxEntries : Nat
  deriving DecidableEq, Repr

/-- Modelled from the spec: raw entry access of the missing
`CacheStore.lookup`, before the expiry check. -/
def findEntry {κ α : Type} [DecidableEq κ] (key : κ) (s : Store κ α) :
    Option (CacheEntry α) :=
  (s.find? fun kv => decide (kv.1 = key)).map fun kv => kv.2

/-- Modelled from the spec: the missing `CacheStore.lookup(key)` — an entry
whose `now > expiresAt` is treated as a miss (lazy expiry). -/
def lookupStore {κ α : Type} [DecidableEq κ] (now : Nat) (key : κ) (s : Store κ α) :
    Option (CacheEntry α) :=
  match findEntry key s with
  | some e => if e.expiresAt < now then none else some e
  | none => none

/-- Modelled from the spec: capacity eviction of the missing CacheStore —
evict entries oldest-`insertedAt`-first (from the head of the
insertion-ordered list) until the new entry of size `newSize` fits both
budgets. -/
def evictOldest {κ α : Type} (cfg : CacheConfig) (newSize : Nat) :
    Store κ α → Store κ α
  | [] => []
  | kv :: rest =>
    if storeSize (kv :: rest) + newSize > cfg.maxMemoryBytes ∨
        (kv :: rest).length + 1 > cfg.maxEntries then
      evictOldest cfg newSize rest
    else kv :: rest

/-- Modelled from the spec: the missing `CacheStore.insert` — replaces any
entry of the same key, evicts oldest-first until under budget, then appends
the new entry; if the single new entry alone exceeds the total budget the
insert is skipped and the store is unchanged. -/
def insertStore {κ α : Type} [DecidableEq κ] (cfg : CacheConfig) (s : Store κ α)
    (key : κ) (e : CacheEntry α) : Store κ α :=
  if e.sizeBytes > cfg.maxMemoryBytes ∨ cfg.maxEntries = 0 then s
  else
    evictOldest cfg e.sizeBytes (s.filter fun kv => decide ¬(kv.1 = key)) ++ [(key, e)]

/-- Modelled from the spec: the missing `CacheStore.clear(predicate)` —
removes all entries (or only the expired ones) and returns the removed
count together with the new store. -/
def clearStore {κ α : Type} (expiredOnly : Bool) (now : Nat) (s : Store κ α) :
    Nat × Store κ α :=
  if expiredOnly then
    (s.countP fun kv => decide (kv.2.expiresAt < now),
     s.filter fun kv => decide ¬(kv.2.expiresAt < now))
  else (s.length, [])

/-- `ClearCacheResult` from icon.ts: cleared and remaining entry counts. -/
structure ClearCacheResult where
  clearedCount : Nat
  remainingCount : Nat
  deriving DecidableEq, Repr

/-- Modelled from the spec: the missing `CacheAdmin.clearCache(expiredOnly)`
— delegates to `CacheStore.clear`, `remainingCount` computed post-clear. -/
def clearCache {κ α : Type} (expiredOnly : Bool) (now : Nat) (s : Store κ α) :
    ClearCacheResult × Store κ α :=
  let r := clearStore expiredOnly now s
  ({ clearedCount := r.1, remainingCount := r.2.length }, r.2)

/-- `IconCacheStats` from icon.ts (the spec's CacheStats). -/
structure IconCacheStats where
  totalEntries : Nat
  validEntries : Nat
  expiredEntries : Nat
  cacheExpiryMinutes : Nat
  memoryUsageBytes : Nat
  deriving DecidableEq, Repr

/-- Modelled from the spec: the missing `CacheStore.stats()` — scans
entries, partitions by expiry, sums sizes; recomputed on demand. -/
def statsStore {κ α : Type} (now : Nat) (cacheExpiryMinutes : Nat) (s : Store κ α) :
    IconCacheStats :=
  { totalEntries := s.length
    validEntries := s.countP fun kv => decide ¬(kv.2.expiresAt < now)
    expiredEntries := s.countP fun kv => decide (kv.2.expiresAt < now)
    cacheExpiryMinutes := cacheExpiryMinutes
    memoryUsageBytes := storeSize s }

/-! ### Spec-modelled SearchCoordinator -/

/-- Icon style filter (icon.ts `IconSearchParams.style`). -/
inductive IconStyle where
  | line
  | fill
  | flat
  | all
  deriving DecidableEq, Repr

/-- Fill-type filter (icon.ts `IconSearchParams.fills`). -/
inductive IconFills where
  | single
  | multi
  | all
  deriving DecidableEq, Repr

/-- Sort order (icon.ts `IconSearchParams.sortType`). -/
inductive IconSortType where
  | relate
  | fresh
  | hot
  deriving DecidableEq, Repr

/-- Search request as the coordinator receives it: required query plus the
optional fields of icon.ts `IconSearchParams`. -/
structure SearchParams where
  query : String
  style : Option IconStyle
  fills : Option IconFills
  sortType : Option IconSortType
  page : Option Nat
  pageSize : Option Nat
  fromCollection : Option Bool
  deriving DecidableEq, Repr

/-- Modelled from the spec: `CacheKey` of the missing core — the tuple of
normalized request fields (query lower-cased and trimmed, canonical default
substitution for omitted optional fields). -/
structure CacheKey where
  query : String
  style : IconStyle
  fills : IconFills
  sortType : IconSortType
  page : Nat
  pageSize : Nat
  fromCollection : Bool
  deriving DecidableEq, Repr

/-- ASCII lower-casing of one character, as in query normalization. -/
def lowerChar (c : Char) : Char :=
  if 'A' ≤ c ∧ c ≤ 'Z' then Char.ofNat (c.toNat + 32) else c

/-- Query-text normalization: trimmed then lower-cased. -/
def normQuery (s : String) : String :=
  ⟨(trimChars s.data).map lowerChar⟩

/-- Modelled from the spec: key construction of the missing
SearchCoordinator — normalized query, defaults `all`/`all`/`relate`/page
1/pageSize 50/fromCollection false for omitted fields (the canonical
defaults of `DEFAULT_SEARCH_PARAMS`). -/
def buildCacheKey (p : SearchParams) : CacheKey :=
  { query := normQuery p.query
    style := p.style.getD .all
    fills := p.fills.getD .all
    sortType := p.sortType.getD .relate
    page := p.page.getD 1
    pageSize := p.pageSize.getD 50
    fromCollection := p.fromCollection.getD false }

/-- Canonical form of a request: normalized query and every optional field
replaced by its canonical default; two requests are semantically equal when
their canonical forms coincide. -/
def canonicalize (p : SearchParams) : SearchParams :=
  { query := normQuery p.query
    style := some (p.style.getD .all)
    fills := some (p.fills.getD .all)
    sortType := some (p.sortType.getD .relate)
    page := some (p.page.getD 1)
    pageSize := some (p.pageSize.getD 50)
    fromCollection := some (p.fromCollection.getD false) }

/-- Provider-imposed maximum page size (default 50 per the spec). -/
def PROVIDER_MAX_PAGE_SIZE : Nat := 50

/-- Modelled from the spec: error kinds of the missing core
(ValidationError, ProviderError, NotFoundError). -/
inductive SearchError where
  | validation (msg : String)
  | provider (status : Nat) (msg : String)
  | notFound (msg : String)
  deriving DecidableEq, Repr

/-- Failure of an outbound IconFetcher call. -/
inductive FetchFailure where
  | provider (status : Nat) (message : String)
  | notFound (message : String)
  deriving DecidableEq, Repr

/-- A fetch failure surfaced to the caller, upstream detail kept verbatim. -/
def failureToError : FetchFailure → SearchError
  | .provider status message => .provider status message
  | .notFound message => .notFound message

/-- Modelled from the spec: query/page validation of the missing
`SearchCoordinator.search` — non-empty-after-trim query, page ≥ 1,
pageSize within [1, provider-max], rejected with ValidationError. -/
def validateKey (k : CacheKey) : Option String :=
  if k.query = "" then some "query must be non-empty after trim"
  else if k.page < 1 then some "page must be at least 1"
  else if k.pageSize < 1 ∨ PROVIDER_MAX_PAGE_SIZE < k.pageSize then
    some "pageSize out of range"
  else none

/-- Raw provider search response (IconFetcher result before
normalization): this page's icons and the total match count. -/
structure RawSearchResponse where
  icons : List IconItem
  total : Nat
  deriving DecidableEq, Repr

/-- Modelled from the spec: response normalization of the missing
SearchCoordinator — at most `pageSize` icons, `hasMore` internally
consistent with `page * pageSize < total`. -/
def normalizeResponse (k : CacheKey) (raw : RawSearchResponse) : IconSearchResult :=
  { icons := raw.icons.take k.pageSize
    total := raw.total
    page := k.page
    pageSize := k.pageSize
    hasMore := decide (k.page * k.pageSize < raw.total) }

/-- Serialized-size estimate of a cached result page. -/
def pageApproxSize (r : IconSearchResult) : Nat :=
  r.icons.length + 1

/-- Modelled from the spec: the shared cache-or-fetch path of the missing
core — cache hit returns the cached value with no fetch; cache miss issues
exactly one fetch, surfaces its failure without caching, or inserts and
returns its value. The outcome of the single fetch is passed explicitly. -/
def cachedFetch {κ α : Type} [DecidableEq κ] (cfg : CacheConfig) (ttl : Nat)
    (approxSize : α → Nat) (cache : Store κ α) (fetchCount : Nat) (key : κ)
    (now : Nat) (fetch : Except FetchFailure α) :
    Except SearchError α × Store κ α × Nat :=
  match lookupStore now key cache with
  | some entry => (.ok entry.value, cache, fetchCount)
  | none =>
    match fetch with
    | .error f => (.error (failureToError f), cache, fetchCount + 1)
    | .ok v =>
        (.ok v,
         insertStore cfg cache key
           { value := v, insertedAt := now, expiresAt := now + ttl,
             sizeBytes := approxSize v },
         fetchCount + 1)

/-- Modelled from the spec: the cache shared by search entries, plus the
cumulative number of IconFetcher calls issued. -/
structure SearchState where
  cache : Store CacheKey IconSearchResult
  fetchCount : Nat
  deriving DecidableEq, Repr

/-- Modelled from the spec: the missing `SearchCoordinator.search(params)`
— validate, build the normalized CacheKey, then cache-or-fetch; the
IconFetcher outcome for the (at most one) fetch is passed explicitly. -/
def coordinatorSearch (cfg : CacheConfig) (ttl : Nat) (st : SearchState)
    (p : SearchParams) (now : Nat)
    (fetch : Except FetchFailure RawSearchResponse) :
    Except SearchError IconSearchResult × SearchState :=
  let key := buildCacheKey p
  match validateKey key with
  | some msg => (.error (.validation msg), st)
  | none =>
      let r := cachedFetch cfg ttl pageApproxSize st.cache st.fetchCount key now
        (fetch.map (normalizeResponse key))
      (r.1, { cache := r.2.1, fetchCount := r.2.2 })

/-- Internal consistency of a result page: `hasMore` agrees with
`page * pageSize < total` and the page holds at most `pageSize` icons. -/
def pageConsistent (r : IconSearchResult) : Prop :=
  r.hasMore = decide (r.page * r.pageSize < r.total) ∧ r.icons.length ≤ r.pageSize

instance (r : IconSearchResult) : Decidable (pageConsistent r) := by
  unfold pageConsistent; infer_instance

/-- Every page stored in the search cache is internally consistent. -/
def cacheWF (s : Store CacheKey IconSearchResult) : Prop :=
  ∀ kv ∈ s, pageConsistent kv.2.value

/-! ### Spec-modelled ContentResolver -/

/-- `IconFormat` from icon.ts. -/
inductive IconFormat where
  | svg
  | png
  | both
  deriving DecidableEq, Repr

/-- Modelled from the spec: content cache key `(iconId, format, size)` of
the missing ContentResolver. -/
structure ContentKey where
  iconId : Nat
  format : IconFormat
  size : Option Nat
  deriving DecidableEq, Repr

/-- `IconContentResult` from icon.ts. -/
structure IconContentResult where
  id : Nat
  name : String
  svgContent : Option String
  pngBase64 : Option String
  mimeType : String
  deriving DecidableEq, Repr

/-- Serialized-size estimate of a cached content payload. -/
def contentApproxSize (r : IconContentResult) : Nat :=
  (r.svgContent.getD "").length + (r.pngBase64.getD "").length + 1

/-- Modelled from the spec: the content cache of the missing
ContentResolver (distinct key namespace), plus its fetch counter. -/
structure ContentState where
  cache : Store ContentKey IconContentResult
  fetchCount : Nat
  deriving DecidableEq, Repr

/-- Modelled from the spec: the missing
`ContentResolver.resolveContent(iconId, format, size)` — same cache-or-fetch
discipline as search, keyed by `(iconId, format, size)`. -/
def resolveContent (cfg : CacheConfig) (ttl : Nat) (st : ContentState)
    (iconId : Nat) (format : IconFormat) (size : Option Nat) (now : Nat)
    (fetch : Except FetchFailure IconContentResult) :
    Except SearchError IconContentResult × ContentState :=
  let r := cachedFetch cfg ttl contentApproxSize st.cache st.fetchCount
    ⟨iconId, format, size⟩ now fetch
  (r.1, { cache := r.2.1, fetchCount := r.2.2 })

/-- A concrete icon used to instantiate theorems at sample inputs. -/
def sampleIcon : IconItem :=
  { id := 1, name := "settings", fontClass := "icon-settings", unicode := none,
    svgContent := none, previewUrl := none, author := none,
    repositoryName := none, repositoryId := none, createdAt := none }

/-- A concrete request used to instantiate theorems at sample inputs. -/
def sampleParams : SearchParams :=
  { query := "settings", style := none, fills := none, sortType := none,
    page := none, pageSize := none, fromCollection := none }

/-- A concrete result page used to instantiate theorems at sample inputs. -/
def samplePage : IconSearchResult :=
  { icons := [], total := 0, page := 1, pageSize := 50, hasMore := false }

/-- A concrete content payload used to instantiate theorems at sample
inputs. -/
def sampleContent : IconContentResult :=
  { id := 42, name := "settings", svgContent := none,
    pngBase64 := some "AAAA", mimeType := "image/png" }

/-! ### Spec-modelled in-flight request deduplication -/

/-- Modelled from the spec: coordinator state under concurrent callers —
the cache, the per-key in-flight registry (key to number of attached
waiters, the shared-promise model of the spec's design notes), and the
cumulative IconFetcher call count. -/
structure ConcState where
  cache : Store CacheKey IconSearchResult
  inflight : List (CacheKey × Nat)
  fetchCount : Nat
  deriving DecidableEq, Repr

/-- Modelled from the spec: one caller arriving at the missing coordinator
— cache hit is served at once; a key already in flight attaches the caller
to the existing handle; otherwise a new fetch is issued and registered. -/
def arriveSearch (st : ConcState) (key : CacheKey) (now : Nat) : ConcState :=
  match lookupStore now key st.cache with
  | some _ => st
  | none =>
    match st.inflight.find? fun kv => decide (kv.1 = key) with
    | some _ =>
        { st with
            inflight := st.inflight.map fun kv =>
              if kv.1 = key then (kv.1, kv.2 + 1) else kv }
    | none =>
        { st with
            inflight := (key, 1) :: st.inflight
            fetchCount := st.fetchCount + 1 }

/-- `n` simultaneous identical callers arriving one after the other. -/
def arriveMany (st : ConcState) (key : CacheKey) (now : Nat) : Nat → ConcState
  | 0 => st
  | n + 1 => arriveSearch (arriveMany st key now n) key now

/-- Modelled from the spec: the shared in-flight fetch settling — every
attached waiter receives the one fetched page, the handle is removed from
the registry, and the page is inserted into the cache. -/
def settleFetch (cfg : CacheConfig) (ttl : Nat) (st : ConcState) (key : CacheKey)
    (page : IconSearchResult) (now : Nat) : List IconSearchResult × ConcState :=
  let waiters := ((st.inflight.find? fun kv => decide (kv.1 = key)).map
    fun kv => kv.2).getD 0
  (List.replicate waiters page,
   { cache := insertStore cfg st.cache key
       { value := page, insertedAt := now, expiresAt := now + ttl,
         sizeBytes := pageApproxSize page }
     inflight := st.inflight.filter fun kv => decide ¬(kv.1 = key)
     fetchCount := st.fetchCount })

end Sanshu

namespace Sanshu

/-! ### Claims C9 and C10 -/

/-- C9: the snake_case/camelCase translation at the IPC boundary is a pure
renaming — converting an `IconItem` to the backend shape (as in
`copyToClipboard`/`saveIcons`) and mapping back through
`transformIconFromBackend` restores the item field for field. -/
theorem boundary_naming_roundtrip (icon : IconItem) :
    transformIconFromBackend (iconToBackend icon) = icon := rfl

/-- C10: in `useIconSearch.search`, a rejected `invoke('search_icons')` sets
`error` to the string form of the exception and nulls `searchResult`
(discarding any previous page), while a validation failure (query empty
after trim) leaves the previous `searchResult` unchanged. -/
theorem hookSearch_error_handling (st : HookState) (resetPage : Bool)
    (e : String) (outcome : InvokeOutcome) :
    (jsTrim st.searchParams.query ≠ "" →
      (hookSearch st resetPage (.err e)).error = some e ∧
      (hookSearch st resetPage (.err e)).searchResult = none) ∧
    (jsTrim st.searchParams.query = "" →
      (hookSearch st resetPage outcome).searchResult = st.searchResult) := by
  constructor
  · intro hq
    unfold hookSearch
    rw [if_neg hq]
    cases resetPage <;> simp
  · intro hq
    unfold hookSearch
    rw [if_pos hq]

/-- Witness for C10 at concrete states: a state holding a previous result
whose invoke rejects with "network down" ends with that error and a null
result, and a state with a whitespace-only query keeps its previous result. -/
theorem hookSearch_error_handling_witness :
    (hookSearch
        { loading := false, error := none
          searchParams := { DEFAULT_SEARCH_PARAMS with query := "settings" }
          searchResult := some { icons := [], total := 7, page := 1, pageSize := 50, hasMore := false }
          selectedIds := [] }
        true (.err "network down")).error = some "network down" ∧
    (hookSearch
        { loading := false, error := none
          searchParams := { DEFAULT_SEARCH_PARAMS with query := "settings" }
          searchResult := some { icons := [], total := 7, page := 1, pageSize := 50, hasMore := false }
          selectedIds := [] }
        true (.err "network down")).searchResult = none ∧
    (hookSearch
        { loading := false, error := none
          searchParams := { DEFAULT_SEARCH_PARAMS with query := "   " }
          searchResult := some { icons := [], total := 7, page := 1, pageSize := 50, hasMore := false }
          selectedIds := [] }
        false (.err "network down")).searchResult =
      some { icons := [], total := 7, page := 1, pageSize := 50, hasMore := false } := by
  refine ⟨?_, ?_, ?_⟩
  · exact ((hookSearch_error_handling _ true "network down" (.err "network down")).1 (by decide)).1
  · exact ((hookSearch_error_handling _ true "network down" (.err "network down")).1 (by decide)).2
  · exact (hookSearch_error_handling _ false "network down" (.err "network down")).2 (by decide)

/-! ### CacheStore lemmas -/

theorem evictOldest_suffix {κ α : Type} (cfg : CacheConfig) (n : Nat)
    (s : Store κ α) : List.IsSuffix (evictOldest cfg n s) s := by
  induction s with
  | nil => exact List.suffix_rfl
  | cons kv rest ih =>
    unfold evictOldest
    split
    · exact ih.trans (List.suffix_cons kv rest)
    · exact List.suffix_rfl

theorem evictOldest_fits {κ α : Type} (cfg : CacheConfig) (n : Nat)
    (s : Store κ α) (hm : n ≤ cfg.maxMemoryBytes) (he : 1 ≤ cfg.maxEntries) :
    storeSize (evictOldest cfg n s) + n ≤ cfg.maxMemoryBytes ∧
    (evictOldest cfg n s).length + 1 ≤ cfg.maxEntries := by
  induction s with
  | nil =>
    constructor
    · simpa [evictOldest, storeSize] using hm
    · simpa [evictOldest] using he
  | cons kv rest ih =>
    unfold evictOldest
    split
    · exact ih
    · next h =>
      push_neg at h
      exact ⟨h.1, h.2⟩

theorem storeSize_concat {κ α : Type} (s : Store κ α) (k : κ) (e : CacheEntry α) :
    storeSize (s ++ [(k, e)]) = storeSize s + e.sizeBytes := by
  simp [storeSize]

theorem insertStore_not_skipped {κ α : Type} [DecidableEq κ] (cfg : CacheConfig)
    (s : Store κ α) (key : κ) (e : CacheEntry α)
    (hm : e.sizeBytes ≤ cfg.maxMemoryBytes) (he : 1 ≤ cfg.maxEntries) :
    insertStore cfg s key e =
      evictOldest cfg e.sizeBytes (s.filter fun kv => decide ¬(kv.1 = key))
        ++ [(key, e)] := by
  unfold insertStore
  rw [if_neg]
  push_neg
  exact ⟨Nat.not_lt.mp (by omega), Nat.one_le_iff_ne_zero.mp he⟩

theorem findEntry_insert_self {κ α : Type} [DecidableEq κ] (cfg : CacheConfig)
    (s : Store κ α) (key : κ) (e : CacheEntry α)
    (hm : e.sizeBytes ≤ cfg.maxMemoryBytes) (he : 1 ≤ cfg.maxEntries) :
    findEntry key (insertStore cfg s key e) = some e := by
  rw [insertStore_not_skipped cfg s key e hm he]
  unfold findEntry
  rw [List.find?_append]
  have h1 : (evictOldest cfg e.sizeBytes
      (s.filter fun kv => decide ¬(kv.1 = key))).find?
        (fun kv => decide (kv.1 = key)) = none := by
    rw [List.find?_eq_none]
    intro kv hkv
    have hmem := (evictOldest_suffix cfg e.sizeBytes
      (s.filter fun kv => decide ¬(kv.1 = key))).subset hkv
    have := List.of_mem_filter hmem
    simpa using this
  rw [h1]
  simp

theorem lookupStore_insert_self {κ α : Type} [DecidableEq κ] (cfg : CacheConfig)
    (s : Store κ α) (key : κ) (e : CacheEntry α) (now : Nat)
    (hm : e.sizeBytes ≤ cfg.maxMemoryBytes) (he : 1 ≤ cfg.maxEntries)
    (hnow : ¬ e.expiresAt < now) :
    lookupStore now key (insertStore cfg s key e) = some e := by
  unfold lookupStore
  rw [findEntry_insert_self cfg s key e hm he]
  simp [hnow]

theorem insertStore_mem {κ α : Type} [DecidableEq κ] (cfg : CacheConfig)
    (s : Store κ α) (key : κ) (e : CacheEntry α) (kv : κ × CacheEntry α)
    (h : kv ∈ insertStore cfg s key e) : kv ∈ s ∨ kv = (key, e) := by
  unfold insertStore at h
  split at h
  · exact .inl h
  · rcases List.mem_append.mp h with h1 | h2
    · left
      have hmem := (evictOldest_suffix cfg e.sizeBytes
        (s.filter fun kv => decide ¬(kv.1 = key))).subset h1
      exact List.mem_of_mem_filter hmem
    · right
      simpa using h2

/-! ### Claim C2: capacity policy of CacheStore.insert -/

/-- C2: when the new entry fits the total budget, insert is never rejected —
oldest entries are evicted (a prefix of the insertion-ordered table) until
under budget, the new entry goes in last and is itself never evicted, and
the store ends within both budgets; only when the single new entry alone
exceeds the budget is caching skipped (store unchanged), and even then a
missed search still returns the fetched page to the caller. -/
theorem insert_capacity_policy {κ α : Type} [DecidableEq κ] (cfg : CacheConfig)
    (s : Store κ α) (key : κ) (e : CacheEntry α) (ttl : Nat)
    (stq : SearchState) (p : SearchParams) (now : Nat) (raw : RawSearchResponse) :
    (e.sizeBytes ≤ cfg.maxMemoryBytes → 1 ≤ cfg.maxEntries →
      (insertStore cfg s key e).getLast? = some (key, e) ∧
      (key, e) ∈ insertStore cfg s key e ∧
      storeSize (insertStore cfg s key e) ≤ cfg.maxMemoryBytes ∧
      (insertStore cfg s key e).length ≤ cfg.maxEntries ∧
      List.IsSuffix ((insertStore cfg s key e).dropLast)
        (s.filter fun kv => decide ¬(kv.1 = key))) ∧
    (cfg.maxMemoryBytes < e.sizeBytes ∨ cfg.maxEntries = 0 →
      insertStore cfg s key e = s) ∧
    (validateKey (buildCacheKey p) = none →
      lookupStore now (buildCacheKey p) stq.cache = none →
      (coordinatorSearch cfg ttl stq p now (.ok raw)).1 =
        .ok (normalizeResponse (buildCacheKey p) raw)) := by
  refine ⟨?_, ?_, ?_⟩
  · intro hm he
    rw [insertStore_not_skipped cfg s key e hm he]
    have hfits := evictOldest_fits cfg e.sizeBytes
      (s.filter fun kv => decide ¬(kv.1 = key)) hm he
    refine ⟨List.getLast?_concat _, by simp, ?_, ?_, ?_⟩
    · rw [storeSize_concat _ key e]
      omega
    · rw [List.length_append]
      simpa using hfits.2
    · rw [List.dropLast_concat]
      exact evictOldest_suffix cfg e.sizeBytes _
  · intro h
    unfold insertStore
    rw [if_pos]
    rcases h with h | h
    · exact .inl h
    · exact .inr h
  · intro hval hmiss
    simp [coordinatorSearch, hval, Except.map, cachedFetch, hmiss]

/-- Witness for C2: with budget 10 bytes / 2 entries and entries of sizes
4, 5 inserted before a new entry of size 6, the two oldest are evicted, the
new entry survives as the latest, and the store is under budget; with a
zero budget a missed search still returns the fetched page. -/
theorem insert_capacity_policy_witness :
    ((6 : Nat) ≤ 10 ∧ (1 : Nat) ≤ 2) ∧
    (insertStore { maxMemoryBytes := 10, maxEntries := 2 }
        [(1, { value := 0, insertedAt := 0, expiresAt := 9, sizeBytes := 4 }),
         (2, { value := 0, insertedAt := 1, expiresAt := 9, sizeBytes := 5 })]
        (3 : Nat)
        ({ value := 0, insertedAt := 2, expiresAt := 9, sizeBytes := 6 } :
          CacheEntry Nat)).getLast? =
      some (3, { value := 0, insertedAt := 2, expiresAt := 9, sizeBytes := 6 }) ∧
    storeSize (insertStore { maxMemoryBytes := 10, maxEntries := 2 }
        [(1, { value := 0, insertedAt := 0, expiresAt := 9, sizeBytes := 4 }),
         (2, { value := 0, insertedAt := 1, expiresAt := 9, sizeBytes := 5 })]
        (3 : Nat)
        ({ value := 0, insertedAt := 2, expiresAt := 9, sizeBytes := 6 } :
          CacheEntry Nat)) ≤ 10 ∧
    (coordinatorSearch { maxMemoryBytes := 0, maxEntries := 0 } 60
        { cache := [], fetchCount := 0 }
        { query := "settings", style := none, fills := none, sortType := none,
          page := none, pageSize := none, fromCollection := none }
        100
        (.ok { icons := [], total := 120 })).1 =
      .ok (normalizeResponse
        (buildCacheKey
          { query := "settings", style := none, fills := none, sortType := none,
            page := none, pageSize := none, fromCollection := none })
        { icons := [], total := 120 }) := by
  refine ⟨⟨by decide, by decide⟩, ?_, ?_, ?_⟩
  · exact ((insert_capacity_policy { maxMemoryBytes := 10, maxEntries := 2 } _ 3 _ 60
      { cache := [], fetchCount := 0 }
      { query := "settings", style := none, fills := none, sortType := none,
        page := none, pageSize := none, fromCollection := none }
      100 { icons := [], total := 120 }).1 (by decide) (by decide)).1
  · exact ((insert_capacity_policy { maxMemoryBytes := 10, maxEntries := 2 } _ 3 _ 60
      { cache := [], fetchCount := 0 }
      { query := "settings", style := none, fills := none, sortType := none,
        page := none, pageSize := none, fromCollection := none }
      100 { icons := [], total := 120 }).1 (by decide) (by decide)).2.2.1
  · exact (insert_capacity_policy { maxMemoryBytes := 0, maxEntries := 0 }
      ([] : Store Nat Nat) 0
      { value := 0, insertedAt := 0, expiresAt := 0, sizeBytes := 0 } 60
      { cache := [], fetchCount := 0 }
      { query := "settings", style := none, fills := none, sortType := none,
        page := none, pageSize := none, fromCollection := none }
      100 { icons := [], total := 120 }).2.2 (by decide) (by decide)

/-! ### Claim C8: idempotence of cache administration -/

/-- C8: running `clearCache(expiredOnly := true)` twice in a row (at the
same instant) clears nothing on the second run — `clearedCount = 0` and the
store is unaffected; clear-all behaves the same on its second run. The
effect of the first run is immediately observable in the returned store. -/
theorem clearCache_idempotent (now : Nat) (s : Store CacheKey IconSearchResult) :
    ((clearCache true now (clearCache true now s).2).1).clearedCount = 0 ∧
    (clearCache true now (clearCache true now s).2).2 = (clearCache true now s).2 ∧
    ((clearCache false now (clearCache false now s).2).1).clearedCount = 0 := by
  refine ⟨?_, ?_, ?_⟩
  · simp only [clearCache, clearStore, if_pos]
    rw [List.countP_eq_zero]
    intro kv hkv
    have := (List.mem_filter.mp hkv).2
    simpa using this
  · simp only [clearCache, clearStore, if_pos]
    rw [List.filter_eq_self]
    intro kv hkv
    exact (List.mem_filter.mp hkv).2
  · simp [clearCache, clearStore]

/-! ### cachedFetch lemmas -/

theorem cachedFetch_hit {κ α : Type} [DecidableEq κ] (cfg : CacheConfig)
    (ttl : Nat) (approxSize : α → Nat) (cache : Store κ α) (n : Nat) (key : κ)
    (now : Nat) (fetch : Except FetchFailure α) (entry : CacheEntry α)
    (h : lookupStore now key cache = some entry) :
    cachedFetch cfg ttl approxSize cache n key now fetch =
      (.ok entry.value, cache, n) := by
  unfold cachedFetch
  rw [h]

theorem cachedFetch_miss_err {κ α : Type} [DecidableEq κ] (cfg : CacheConfig)
    (ttl : Nat) (approxSize : α → Nat) (cache : Store κ α) (n : Nat) (key : κ)
    (now : Nat) (f : FetchFailure)
    (h : lookupStore now key cache = none) :
    cachedFetch cfg ttl approxSize cache n key now (.error f) =
      (.error (failureToError f), cache, n + 1) := by
  unfold cachedFetch
  rw [h]

theorem cachedFetch_miss_ok {κ α : Type} [DecidableEq κ] (cfg : CacheConfig)
    (ttl : Nat) (approxSize : α → Nat) (cache : Store κ α) (n : Nat) (key : κ)
    (now : Nat) (v : α)
    (h : lookupStore now key cache = none) :
    cachedFetch cfg ttl approxSize cache n key now (.ok v) =
      (.ok v,
       insertStore cfg cache key
         { value := v, insertedAt := now, expiresAt := now + ttl,
           sizeBytes := approxSize v },
       n + 1) := by
  unfold cachedFetch
  rw [h]

theorem cachedFetch_miss_count {κ α : Type} [DecidableEq κ] (cfg : CacheConfig)
    (ttl : Nat) (approxSize : α → Nat) (cache : Store κ α) (n : Nat) (key : κ)
    (now : Nat) (fetch : Except FetchFailure α)
    (h : lookupStore now key cache = none) :
    (cachedFetch cfg ttl approxSize cache n key now fetch).2.2 = n + 1 := by
  unfold cachedFetch
  rw [h]
  cases fetch <;> rfl

theorem buildCacheKey_eq_of_canonicalize {p1 p2 : SearchParams}
    (h : canonicalize p1 = canonicalize p2) :
    buildCacheKey p1 = buildCacheKey p2 := by
  simp only [canonicalize, SearchParams.mk.injEq, Option.some.injEq] at h
  obtain ⟨hq, hs, hf, hsort, hp, hps, hc⟩ := h
  simp [buildCacheKey, hq, hs, hf, hsort, hp, hps, hc]

/-! ### Claim C3: CacheKey normalization -/

/-- C3: two byte-for-byte different but semantically equal requests (equal
after query trimming/lower-casing and canonical default substitution) build
the same CacheKey, and searching the second right after the first hits the
cache entry populated by the first: the first (fitting) miss fetches and
returns the normalized page, the second call returns the same page and
issues no second provider call, whatever its fetcher would have done. -/
theorem cacheKey_normalization (cfg : CacheConfig) (ttl : Nat)
    (st : SearchState) (p1 p2 : SearchParams) (now : Nat)
    (raw : RawSearchResponse) (fetch2 : Except FetchFailure RawSearchResponse)
    (hsem : canonicalize p1 = canonicalize p2)
    (hval : validateKey (buildCacheKey p1) = none)
    (hmiss : lookupStore now (buildCacheKey p1) st.cache = none)
    (hsize : pageApproxSize (normalizeResponse (buildCacheKey p1) raw) ≤
      cfg.maxMemoryBytes)
    (hent : 1 ≤ cfg.maxEntries) :
    buildCacheKey p1 = buildCacheKey p2 ∧
    (coordinatorSearch cfg ttl st p1 now (.ok raw)).1 =
      .ok (normalizeResponse (buildCacheKey p1) raw) ∧
    (coordinatorSearch cfg ttl
        ((coordinatorSearch cfg ttl st p1 now (.ok raw)).2) p2 now fetch2).1 =
      (coordinatorSearch cfg ttl st p1 now (.ok raw)).1 ∧
    (coordinatorSearch cfg ttl
        ((coordinatorSearch cfg ttl st p1 now (.ok raw)).2) p2 now fetch2).2.fetchCount =
      ((coordinatorSearch cfg ttl st p1 now (.ok raw)).2).fetchCount := by
  have hkey := buildCacheKey_eq_of_canonicalize hsem
  have h1 : coordinatorSearch cfg ttl st p1 now (.ok raw) =
      (.ok (normalizeResponse (buildCacheKey p1) raw),
       { cache := insertStore cfg st.cache (buildCacheKey p1)
           { value := normalizeResponse (buildCacheKey p1) raw,
             insertedAt := now, expiresAt := now + ttl,
             sizeBytes := pageApproxSize (normalizeResponse (buildCacheKey p1) raw) },
         fetchCount := st.fetchCount + 1 }) := by
    simp only [coordinatorSearch, hval, Except.map]
    rw [cachedFetch_miss_ok cfg ttl pageApproxSize st.cache st.fetchCount
      (buildCacheKey p1) now (normalizeResponse (buildCacheKey p1) raw) hmiss]
  have hhit : lookupStore now (buildCacheKey p1)
      (insertStore cfg st.cache (buildCacheKey p1)
        { value := normalizeResponse (buildCacheKey p1) raw,
          insertedAt := now, expiresAt := now + ttl,
          sizeBytes := pageApproxSize (normalizeResponse (buildCacheKey p1) raw) }) =
      some { value := normalizeResponse (buildCacheKey p1) raw,
             insertedAt := now, expiresAt := now + ttl,
             sizeBytes := pageApproxSize (normalizeResponse (buildCacheKey p1) raw) } := by
    apply lookupStore_insert_self
    · exact hsize
    · exact hent
    · show ¬ now + ttl < now
      omega
  refine ⟨hkey, by rw [h1], ?_, ?_⟩
  · rw [h1]
    simp only [coordinatorSearch, ← hkey, hval]
    rw [cachedFetch_hit _ _ _ _ _ _ _ _ _ hhit]
  · rw [h1]
    simp only [coordinatorSearch, ← hkey, hval]
    rw [cachedFetch_hit _ _ _ _ _ _ _ _ _ hhit]

/-- Witness for C3: `"  Settings "` with omitted optional fields and
`"settings"` with all defaults explicit are semantically equal, the first
search (fresh cache, 30-entry budget) misses and fetches, the second
returns the identical page with no further fetch. -/
theorem cacheKey_normalization_witness :
    canonicalize
        { query := "  Settings ", style := none, fills := none, sortType := none,
          page := none, pageSize := none, fromCollection := none } =
      canonicalize
        { query := "settings", style := some .all, fills := some .all,
          sortType := some .relate, page := some 1, pageSize := some 50,
          fromCollection := some false } ∧
    buildCacheKey
        { query := "  Settings ", style := none, fills := none, sortType := none,
          page := none, pageSize := none, fromCollection := none } =
      buildCacheKey
        { query := "settings", style := some .all, fills := some .all,
          sortType := some .relate, page := some 1, pageSize := some 50,
          fromCollection := some false } ∧
    (coordinatorSearch { maxMemoryBytes := 1000, maxEntries := 30 } 60
        { cache :=
            (coordinatorSearch { maxMemoryBytes := 1000, maxEntries := 30 } 60
              { cache := [], fetchCount := 0 }
              { query := "  Settings ", style := none, fills := none,
                sortType := none, page := none, pageSize := none,
                fromCollection := none }
              100 (.ok { icons := [], total := 120 })).2.cache
          fetchCount :=
            (coordinatorSearch { maxMemoryBytes := 1000, maxEntries := 30 } 60
              { cache := [], fetchCount := 0 }
              { query := "  Settings ", style := none, fills := none,
                sortType := none, page := none, pageSize := none,
                fromCollection := none }
              100 (.ok { icons := [], total := 120 })).2.fetchCount }
        { query := "settings", style := some .all, fills := some .all,
          sortType := some .relate, page := some 1, pageSize := some 50,
          fromCollection := some false }
        100 (.error (.provider 500 "should never be called"))).2.fetchCount =
      (coordinatorSearch { maxMemoryBytes := 1000, maxEntries := 30 } 60
        { cache := [], fetchCount := 0 }
        { query := "  Settings ", style := none, fills := none, sortType := none,
          page := none, pageSize := none, fromCollection := none }
        100 (.ok { icons := [], total := 120 })).2.fetchCount := by
  have h := cacheKey_normalization { maxMemoryBytes := 1000, maxEntries := 30 } 60
    { cache := [], fetchCount := 0 }
    { query := "  Settings ", style := none, fills := none, sortType := none,
      page := none, pageSize := none, fromCollection := none }
    { query := "settings", style := some .all, fills := some .all,
      sortType := some .relate, page := some 1, pageSize := some 50,
      fromCollection := some false }
    100 { icons := [], total := 120 }
    (.error (.provider 500 "should never be called"))
    (by decide) (by decide) (by decide) (by decide) (by decide)
  exact ⟨by decide, h.1, h.2.2.2⟩

/-! ### Claim C4: lazy expiry -/

/-- C4: an entry stored under a key but past its `expiresAt` makes
`lookup` report a miss (for the search cache and the content cache alike),
and the next `search` (resp. `resolveContent`) for that key issues exactly
one fresh fetch (the fetch counter grows by exactly one, whatever the
fetch outcome). -/
theorem lazy_expiry (cfg : CacheConfig) (ttl : Nat) (stS : SearchState)
    (stC : ContentState) (p : SearchParams) (now : Nat)
    (eS : CacheEntry IconSearchResult) (eC : CacheEntry IconContentResult)
    (iconId : Nat) (format : IconFormat) (size : Option Nat)
    (fetchS : Except FetchFailure RawSearchResponse)
    (fetchC : Except FetchFailure IconContentResult)
    (hS : findEntry (buildCacheKey p) stS.cache = some eS)
    (hexpS : eS.expiresAt < now)
    (hval : validateKey (buildCacheKey p) = none)
    (hC : findEntry (⟨iconId, format, size⟩ : ContentKey) stC.cache = some eC)
    (hexpC : eC.expiresAt < now) :
    lookupStore now (buildCacheKey p) stS.cache = none ∧
    lookupStore now (⟨iconId, format, size⟩ : ContentKey) stC.cache = none ∧
    (coordinatorSearch cfg ttl stS p now fetchS).2.fetchCount =
      stS.fetchCount + 1 ∧
    (resolveContent cfg ttl stC iconId format size now fetchC).2.fetchCount =
      stC.fetchCount + 1 := by
  have hm1 : lookupStore now (buildCacheKey p) stS.cache = none := by
    unfold lookupStore
    rw [hS]
    simp [hexpS]
  have hm2 : lookupStore now (⟨iconId, format, size⟩ : ContentKey) stC.cache = none := by
    unfold lookupStore
    rw [hC]
    simp [hexpC]
  refine ⟨hm1, hm2, ?_, ?_⟩
  · simp only [coordinatorSearch, hval]
    exact cachedFetch_miss_count _ _ _ _ _ _ _ _ hm1
  · simp only [resolveContent]
    exact cachedFetch_miss_count _ _ _ _ _ _ _ _ hm2

/-- Witness for C4 at a concrete expired entry (expiry 5, now 10): lookup
misses and both a search and a content resolve issue exactly one fetch. -/
theorem lazy_expiry_witness :
    findEntry (buildCacheKey sampleParams)
        [(buildCacheKey sampleParams,
          ({ value := samplePage, insertedAt := 0, expiresAt := 5, sizeBytes := 1 } :
            CacheEntry IconSearchResult))] =
      some { value := samplePage, insertedAt := 0, expiresAt := 5, sizeBytes := 1 } ∧
    (5 : Nat) < 10 ∧
    lookupStore 10 (buildCacheKey sampleParams)
        [(buildCacheKey sampleParams,
          ({ value := samplePage, insertedAt := 0, expiresAt := 5, sizeBytes := 1 } :
            CacheEntry IconSearchResult))] = none ∧
    (coordinatorSearch { maxMemoryBytes := 1000, maxEntries := 30 } 60
        { cache :=
            [(buildCacheKey sampleParams,
              { value := samplePage, insertedAt := 0, expiresAt := 5, sizeBytes := 1 })]
          fetchCount := 1 }
        sampleParams 10
        (.ok { icons := [sampleIcon], total := 1 })).2.fetchCount = 2 ∧
    (resolveContent { maxMemoryBytes := 1000, maxEntries := 30 } 60
        { cache :=
            [((⟨42, .png, some 64⟩ : ContentKey),
              { value := sampleContent, insertedAt := 0, expiresAt := 5, sizeBytes := 5 })]
          fetchCount := 3 }
        42 .png (some 64) 10 (.ok sampleContent)).2.fetchCount = 4 := by
  have h := lazy_expiry { maxMemoryBytes := 1000, maxEntries := 30 } 60
    { cache :=
        [(buildCacheKey sampleParams,
          { value := samplePage, insertedAt := 0, expiresAt := 5, sizeBytes := 1 })]
      fetchCount := 1 }
    { cache :=
        [((⟨42, .png, some 64⟩ : ContentKey),
          { value := sampleContent, insertedAt := 0, expiresAt := 5, sizeBytes := 5 })]
      fetchCount := 3 }
    sampleParams 10
    { value := samplePage, insertedAt := 0, expiresAt := 5, sizeBytes := 1 }
    { value := sampleContent, insertedAt := 0, expiresAt := 5, sizeBytes := 5 }
    42 .png (some 64)
    (.ok { icons := [sampleIcon], total := 1 })
    (.ok sampleContent)
    (by decide) (by decide) (by decide) (by decide) (by decide)
  exact ⟨by decide, by decide, h.1, h.2.2.1, h.2.2.2⟩

/-! ### Claim C5: input validation of search -/

/-- C5: a request whose query is empty after trimming, or whose page is
below 1, or whose pageSize lies outside [1, provider-max], makes `search`
fail with a ValidationError at once: no provider call is issued and the
whole state (cache and fetch counter) is unchanged. -/
theorem search_validation (cfg : CacheConfig) (ttl : Nat) (st : SearchState)
    (p : SearchParams) (now : Nat) (fetch : Except FetchFailure RawSearchResponse)
    (hbad : trimChars p.query.data = [] ∨ p.page.getD 1 < 1 ∨
      p.pageSize.getD 50 < 1 ∨ PROVIDER_MAX_PAGE_SIZE < p.pageSize.getD 50) :
    (∃ msg, (coordinatorSearch cfg ttl st p now fetch).1 =
      .error (.validation msg)) ∧
    (coordinatorSearch cfg ttl st p now fetch).2 = st := by
  have hsome : ∃ msg, validateKey (buildCacheKey p) = some msg := by
    unfold validateKey
    split_ifs with h1 h2 h3
    · exact ⟨_, rfl⟩
    · exact ⟨_, rfl⟩
    · exact ⟨_, rfl⟩
    · exfalso
      rcases hbad with ht | hp | hps | hps
      · apply h1
        show normQuery p.query = ""
        unfold normQuery
        rw [ht]
        rfl
      · exact h2 hp
      · exact h3 (Or.inl hps)
      · exact h3 (Or.inr hps)
  obtain ⟨msg, hmsg⟩ := hsome
  constructor
  · exact ⟨msg, by simp [coordinatorSearch, hmsg]⟩
  · simp [coordinatorSearch, hmsg]

/-- Witness for C5: a whitespace-only query, a page-0 request and a
pageSize-51 request are each rejected with a ValidationError while the
state stays untouched. -/
theorem search_validation_witness :
    (trimChars ("   " : String).data = [] ∨ (1 : Nat) < 1 ∨ (50 : Nat) < 1 ∨
      PROVIDER_MAX_PAGE_SIZE < 50) ∧
    (∃ msg, (coordinatorSearch { maxMemoryBytes := 1000, maxEntries := 30 } 60
      { cache := [], fetchCount := 0 }
      { query := "   ", style := none, fills := none, sortType := none,
        page := none, pageSize := none, fromCollection := none }
      100 (.ok { icons := [], total := 0 })).1 = .error (.validation msg)) ∧
    (coordinatorSearch { maxMemoryBytes := 1000, maxEntries := 30 } 60
      { cache := [], fetchCount := 0 }
      { query := "   ", style := none, fills := none, sortType := none,
        page := none, pageSize := none, fromCollection := none }
      100 (.ok { icons := [], total := 0 })).2 =
      { cache := [], fetchCount := 0 } ∧
    (∃ msg, (coordinatorSearch { maxMemoryBytes := 1000, maxEntries := 30 } 60
      { cache := [], fetchCount := 0 }
      { query := "settings", style := none, fills := none, sortType := none,
        page := some 0, pageSize := none, fromCollection := none }
      100 (.ok { icons := [], total := 0 })).1 = .error (.validation msg)) ∧
    (∃ msg, (coordinatorSearch { maxMemoryBytes := 1000, maxEntries := 30 } 60
      { cache := [], fetchCount := 0 }
      { query := "settings", style := none, fills := none, sortType := none,
        page := none, pageSize := some 51, fromCollection := none }
      100 (.ok { icons := [], total := 0 })).1 = .error (.validation msg)) := by
  refine ⟨Or.inl (by decide), ?_, ?_, ?_, ?_⟩
  · exact (search_validation { maxMemoryBytes := 1000, maxEntries := 30 } 60
      { cache := [], fetchCount := 0 }
      { query := "   ", style := none, fills := none, sortType := none,
        page := none, pageSize := none, fromCollection := none }
      100 (.ok { icons := [], total := 0 }) (Or.inl (by decide))).1
  · exact (search_validation { maxMemoryBytes := 1000, maxEntries := 30 } 60
      { cache := [], fetchCount := 0 }
      { query := "   ", style := none, fills := none, sortType := none,
        page := none, pageSize := none, fromCollection := none }
      100 (.ok { icons := [], total := 0 }) (Or.inl (by decide))).2
  · exact (search_validation { maxMemoryBytes := 1000, maxEntries := 30 } 60
      { cache := [], fetchCount := 0 }
      { query := "settings", style := none, fills := none, sortType := none,
        page := some 0, pageSize := none, fromCollection := none }
      100 (.ok { icons := [], total := 0 }) (Or.inr (Or.inl (by decide)))).1
  · exact (search_validation { maxMemoryBytes := 1000, maxEntries := 30 } 60
      { cache := [], fetchCount := 0 }
      { query := "settings", style := none, fills := none, sortType := none,
        page := none, pageSize := some 51, fromCollection := none }
      100 (.ok { icons := [], total := 0 })
      (Or.inr (Or.inr (Or.inr (by decide))))).1

/-! ### Claim C6: no negative caching -/

/-- C6: when the fetch behind a cache miss fails, a ProviderError carrying
the upstream status and message is surfaced, the cache is unchanged (no
negative entry), and a subsequent identical request fetches from the
provider again (the counter grows by one more, whatever its outcome). -/
theorem provider_error_not_cached (cfg : CacheConfig) (ttl : Nat)
    (st : SearchState) (p : SearchParams) (now : Nat) (status : Nat)
    (message : String) (fetch2 : Except FetchFailure RawSearchResponse)
    (hval : validateKey (buildCacheKey p) = none)
    (hmiss : lookupStore now (buildCacheKey p) st.cache = none) :
    (coordinatorSearch cfg ttl st p now (.error (.provider status message))).1 =
      .error (.provider status message) ∧
    (coordinatorSearch cfg ttl st p now (.error (.provider status message))).2.cache =
      st.cache ∧
    (coordinatorSearch cfg ttl
        ((coordinatorSearch cfg ttl st p now (.error (.provider status message))).2)
        p now fetch2).2.fetchCount =
      ((coordinatorSearch cfg ttl st p now
        (.error (.provider status message))).2).fetchCount + 1 := by
  have h1 : coordinatorSearch cfg ttl st p now (.error (.provider status message)) =
      (.error (.provider status message),
       { cache := st.cache, fetchCount := st.fetchCount + 1 }) := by
    simp only [coordinatorSearch, Except.map, hval]
    rw [cachedFetch_miss_err _ _ _ _ _ _ _ _ hmiss]
    rfl
  rw [h1]
  refine ⟨rfl, rfl, ?_⟩
  simp only [coordinatorSearch, hval]
  exact cachedFetch_miss_count _ _ _ _ _ _ _ _ hmiss

/-- Witness for C6: a 503 "rate limited" failure on a fresh cache is
surfaced verbatim, nothing is cached, and the identical retry fetches
again. -/
theorem provider_error_not_cached_witness :
    (coordinatorSearch { maxMemoryBytes := 1000, maxEntries := 30 } 60
        { cache := [], fetchCount := 0 }
        { query := "settings", style := none, fills := none, sortType := none,
          page := none, pageSize := none, fromCollection := none }
        100 (.error (.provider 503 "rate limited"))).1 =
      .error (.provider 503 "rate limited") ∧
    (coordinatorSearch { maxMemoryBytes := 1000, maxEntries := 30 } 60
        { cache := [], fetchCount := 0 }
        { query := "settings", style := none, fills := none, sortType := none,
          page := none, pageSize := none, fromCollection := none }
        100 (.error (.provider 503 "rate limited"))).2.cache = [] ∧
    (coordinatorSearch { maxMemoryBytes := 1000, maxEntries := 30 } 60
        ((coordinatorSearch { maxMemoryBytes := 1000, maxEntries := 30 } 60
          { cache := [], fetchCount := 0 }
          { query := "settings", style := none, fills := none, sortType := none,
            page := none, pageSize := none, fromCollection := none }
          100 (.error (.provider 503 "rate limited"))).2)
        { query := "settings", style := none, fills := none, sortType := none,
          page := none, pageSize := none, fromCollection := none }
        100 (.error (.provider 503 "rate limited"))).2.fetchCount = 2 := by
  have h := provider_error_not_cached { maxMemoryBytes := 1000, maxEntries := 30 }
    60 { cache := [], fetchCount := 0 }
    { query := "settings", style := none, fills := none, sortType := none,
      page := none, pageSize := none, fromCollection := none }
    100 503 "rate limited" (.error (.provider 503 "rate limited"))
    (by decide) (by decide)
  exact ⟨h.1, h.2.1, h.2.2⟩

/-! ### Claim C7: page consistency -/

theorem pageConsistent_normalizeResponse (k : CacheKey) (raw : RawSearchResponse) :
    pageConsistent (normalizeResponse k raw) := by
  constructor
  · rfl
  · simp only [normalizeResponse]
    rw [List.length_take]
    exact min_le_left _ _

theorem lookupStore_mem {κ α : Type} [DecidableEq κ] (now : Nat) (key : κ)
    (s : Store κ α) (e : CacheEntry α)
    (h : lookupStore now key s = some e) : ∃ k, (k, e) ∈ s := by
  unfold lookupStore findEntry at h
  cases hg : s.find? fun kv => decide (kv.1 = key) with
  | none =>
    rw [hg] at h
    simp at h
  | some kv =>
    rw [hg] at h
    simp only [Option.map_some'] at h
    by_cases hexp : kv.2.expiresAt < now
    · rw [if_pos hexp] at h
      simp at h
    · rw [if_neg hexp] at h
      have he := Option.some.inj h
      have hmem := List.mem_of_find?_eq_some hg
      refine ⟨kv.1, ?_⟩
      rw [← he]
      simpa using hmem

/-- C7: (relative to a cache holding only internally consistent pages, as
every cache populated by the coordinator is) any page returned by `search`
satisfies `hasMore = (page * pageSize < total)` and carries at most
`pageSize` icons, and the cache keeps that invariant. -/
theorem page_consistency (cfg : CacheConfig) (ttl : Nat) (st : SearchState)
    (p : SearchParams) (now : Nat) (fetch : Except FetchFailure RawSearchResponse)
    (r : IconSearchResult) (st' : SearchState)
    (hwf : cacheWF st.cache)
    (h : coordinatorSearch cfg ttl st p now fetch = (.ok r, st')) :
    pageConsistent r ∧ cacheWF st'.cache := by
  cases hv : validateKey (buildCacheKey p) with
  | some msg =>
    simp only [coordinatorSearch, hv] at h
    simp at h
  | none =>
    simp only [coordinatorSearch, hv] at h
    cases hl : lookupStore now (buildCacheKey p) st.cache with
    | some entry =>
      rw [cachedFetch_hit _ _ _ _ _ _ _ _ _ hl] at h
      simp only [Prod.mk.injEq, Except.ok.injEq] at h
      obtain ⟨hr, hst⟩ := h
      obtain ⟨k, hk⟩ := lookupStore_mem _ _ _ _ hl
      constructor
      · rw [← hr]
        exact hwf _ hk
      · rw [← hst]
        exact hwf
    | none =>
      cases fetch with
      | error f =>
        simp only [Except.map] at h
        rw [cachedFetch_miss_err _ _ _ _ _ _ _ _ hl] at h
        simp at h
      | ok raw =>
        simp only [Except.map] at h
        rw [cachedFetch_miss_ok _ _ _ _ _ _ _ _ hl] at h
        simp only [Prod.mk.injEq, Except.ok.injEq] at h
        obtain ⟨hr, hst⟩ := h
        constructor
        · rw [← hr]
          exact pageConsistent_normalizeResponse _ _
        · rw [← hst]
          intro kv hkv
          rcases insertStore_mem _ _ _ _ _ hkv with hold | hnew
          · exact hwf _ hold
          · rw [hnew]
            exact pageConsistent_normalizeResponse _ _

/-- Witness for C7 at the spec's end-to-end example: provider has 120
matches; page 1 (50 raw icons) comes back with `hasMore = true` and 50
icons, page 3 (20 raw icons) with `hasMore = false` and exactly 20 icons;
both returned pages are internally consistent. -/
theorem page_consistency_witness :
    cacheWF ([] : Store CacheKey IconSearchResult) ∧
    pageConsistent
      (normalizeResponse (buildCacheKey { sampleParams with page := some 1 })
        { icons := List.replicate 50 sampleIcon, total := 120 }) ∧
    pageConsistent
      (normalizeResponse (buildCacheKey { sampleParams with page := some 3 })
        { icons := List.replicate 20 sampleIcon, total := 120 }) ∧
    (normalizeResponse (buildCacheKey { sampleParams with page := some 1 })
        { icons := List.replicate 50 sampleIcon, total := 120 }).hasMore = true ∧
    (normalizeResponse (buildCacheKey { sampleParams with page := some 3 })
        { icons := List.replicate 20 sampleIcon, total := 120 }).hasMore = false ∧
    (normalizeResponse (buildCacheKey { sampleParams with page := some 3 })
        { icons := List.replicate 20 sampleIcon, total := 120 }).icons.length = 20 := by
  have hwf : cacheWF ([] : Store CacheKey IconSearchResult) := by
    intro kv hkv
    simp at hkv
  have h1 := page_consistency { maxMemoryBytes := 1000, maxEntries := 30 } 60
    { cache := [], fetchCount := 0 } { sampleParams with page := some 1 } 100
    (.ok { icons := List.replicate 50 sampleIcon, total := 120 })
    (normalizeResponse (buildCacheKey { sampleParams with page := some 1 })
      { icons := List.replicate 50 sampleIcon, total := 120 })
    ((coordinatorSearch { maxMemoryBytes := 1000, maxEntries := 30 } 60
      { cache := [], fetchCount := 0 } { sampleParams with page := some 1 } 100
      (.ok { icons := List.replicate 50 sampleIcon, total := 120 })).2)
    hwf rfl
  have h3 := page_consistency { maxMemoryBytes := 1000, maxEntries := 30 } 60
    { cache := [], fetchCount := 0 } { sampleParams with page := some 3 } 100
    (.ok { icons := List.replicate 20 sampleIcon, total := 120 })
    (normalizeResponse (buildCacheKey { sampleParams with page := some 3 })
      { icons := List.replicate 20 sampleIcon, total := 120 })
    ((coordinatorSearch { maxMemoryBytes := 1000, maxEntries := 30 } 60
      { cache := [], fetchCount := 0 } { sampleParams with page := some 3 } 100
      (.ok { icons := List.replicate 20 sampleIcon, total := 120 })).2)
    hwf rfl
  exact ⟨hwf, h1.1, h3.1, by decide, by decide, by decide⟩

/-! ### Claim C1: at most one concurrent fetch per key -/

theorem arriveMany_spec (st : ConcState) (key : CacheKey) (now : Nat) (n : Nat)
    (hmiss : lookupStore now key st.cache = none)
    (hinf : (st.inflight.find? fun kv => decide (kv.1 = key)) = none)
    (hn : 1 ≤ n) :
    arriveMany st key now n =
      { cache := st.cache, inflight := (key, n) :: st.inflight,
        fetchCount := st.fetchCount + 1 } := by
  induction n with
  | zero => omega
  | succ n ih =>
    rcases Nat.eq_zero_or_pos n with h0 | hpos
    · subst h0
      show arriveSearch st key now = _
      unfold arriveSearch
      rw [hmiss, hinf]
    · show arriveSearch (arriveMany st key now n) key now = _
      rw [ih hpos]
      have hhead : (((key, n) :: st.inflight).find? fun kv => decide (kv.1 = key)) =
          some (key, n) := by
        simp [List.find?]
      have hrest : ∀ kv ∈ st.inflight, ¬ (kv.1 = key) := by
        intro kv hkv
        have := List.find?_eq_none.mp hinf kv hkv
        simpa using this
      have hid : ∀ kv ∈ st.inflight,
          (fun kv : CacheKey × Nat => if kv.1 = key then (kv.1, kv.2 + 1) else kv) kv =
            id kv := by
        intro kv hkv
        simp [hrest kv hkv]
      have hmap : ((key, n) :: st.inflight).map
          (fun kv : CacheKey × Nat => if kv.1 = key then (kv.1, kv.2 + 1) else kv) =
          (key, n + 1) :: st.inflight := by
        rw [List.map_cons, List.map_congr_left hid, List.map_id]
        simp
      unfold arriveSearch
      rw [hmiss, hhead]
      simp [hmap]

/-- C1: with no cache entry for the key and no fetch in flight, `n ≥ 2`
simultaneous identical search calls issue exactly one IconFetcher call
(the later callers attach to the first caller's in-flight handle), and
when that single fetch settles every one of the `n` callers receives the
same resulting page. -/
theorem at_most_one_concurrent_fetch (cfg : CacheConfig) (ttl : Nat)
    (st : ConcState) (key : CacheKey) (now : Nat) (n : Nat)
    (page : IconSearchResult)
    (hmiss : lookupStore now key st.cache = none)
    (hinf : (st.inflight.find? fun kv => decide (kv.1 = key)) = none)
    (hn : 2 ≤ n) :
    (arriveMany st key now n).fetchCount = st.fetchCount + 1 ∧
    (settleFetch cfg ttl (arriveMany st key now n) key page now).1 =
      List.replicate n page := by
  have h := arriveMany_spec st key now n hmiss hinf (by omega)
  rw [h]
  constructor
  · rfl
  · simp [settleFetch, List.find?]

/-- Witness for C1: three simultaneous callers for the same fresh key on an
empty coordinator issue exactly one fetch and all three receive the settled
page. -/
theorem at_most_one_concurrent_fetch_witness :
    lookupStore 100 (buildCacheKey sampleParams)
      ([] : Store CacheKey IconSearchResult) = none ∧
    (([] : List (CacheKey × Nat)).find? fun kv =>
      decide (kv.1 = buildCacheKey sampleParams)) = none ∧
    (arriveMany { cache := [], inflight := [], fetchCount := 0 }
      (buildCacheKey sampleParams) 100 3).fetchCount = 1 ∧
    (settleFetch { maxMemoryBytes := 1000, maxEntries := 30 } 60
        (arriveMany { cache := [], inflight := [], fetchCount := 0 }
          (buildCacheKey sampleParams) 100 3)
        (buildCacheKey sampleParams) samplePage 100).1 =
      List.replicate 3 samplePage := by
  have h := at_most_one_concurrent_fetch { maxMemoryBytes := 1000, maxEntries := 30 }
    60 { cache := [], inflight := [], fetchCount := 0 }
    (buildCacheKey sampleParams) 100 3 samplePage
    (by decide) (by decide) (by decide)
  exact ⟨by decide, by decide, h.1, h.2⟩

end Sanshu
